import Mathlib

/-!
Shallow embedding of the Vectra API client (`modules/vectra.py`) and proofs of
the specification claims about it.

Modelling conventions:
* Python `dict` values are association lists with Python's assignment and
  `update` semantics (`dictInsert`, `dictUpdate`); a dict built this way has
  unique keys and preserves insertion order, like a Python dict.
* Optional / nullable Python values are `Option`; Python truthiness of an
  optional string or integer is made explicit (`truthy`, `idTruthy`).
* The HTTP layer (`requests`) is a pure transport function
  `HttpRequest → HttpResponse`; every operation returns the ordered list of
  requests it issued together with its outcome, and raised Python exceptions
  become `Except` errors (`VError`).
* Mutation of `self.headers` (Python aliasing in the mutating endpoints) is
  modelled by returning the updated client alongside the result.
-/

namespace Vectra

/-- Python truthiness of an optional string: `None` and `''` are falsy. -/
def truthy : Option String → Bool
  | none => false
  | some s => s != ""

/-- Python truthiness of an optional integer id: `None` and `0` are falsy. -/
def idTruthy : Option Nat → Bool
  | none => false
  | some n => n != 0

/-- Rendering of an optional id by `'{id}'.format(id=x)`: `None` prints as `"None"`. -/
def urlId : Option Nat → String
  | none => "None"
  | some n => toString n

/-- Character-list test used to model Python `str.startswith`. -/
def listIsPre : List Char → List Char → Bool
  | [], _ => true
  | _ :: _, [] => false
  | a :: pa, b :: sb => a == b && listIsPre pa sb

/-- Model of Python `str.startswith`. -/
def pyStartsWith (s pat : String) : Bool := listIsPre pat.data s.data

/-- Fuel-indexed scan removing every occurrence of `pat`, modelling
`str.replace(pat, '')`; the fuel is instantiated with the string length, which
always suffices because each step consumes at least one character. -/
def stripAllAux (pat : List Char) : Nat → List Char → List Char
  | 0, s => s
  | _ + 1, [] => []
  | fuel + 1, c :: rest =>
    if 0 < pat.length ∧ listIsPre pat (c :: rest) = true then
      stripAllAux pat fuel (rest.drop (pat.length - 1))
    else c :: stripAllAux pat fuel rest

/-- Model of Python `s.replace(pat, '')` (replace all occurrences with nothing). -/
def pyReplace (s pat : String) : String := ⟨stripAllAux pat.data s.data.length s.data⟩

/-- Model of Python `str.strip()`: drop leading and trailing whitespace. -/
def pyStrip (s : String) : String :=
  ⟨((s.data.dropWhile Char.isWhitespace).reverse.dropWhile Char.isWhitespace).reverse⟩

/-- Model of Python `str.lower()`. -/
def pyLower (s : String) : String := ⟨s.data.map Char.toLower⟩

/-! ## Python dictionaries -/

/-- The keys of an association-list dictionary, in insertion order. -/
def keysOf {V : Type} (d : List (String × V)) : List String := d.map Prod.fst

/-- Python dict assignment `d[k] = v`: update in place when the key exists
(keeping its position), otherwise append at the end. -/
def dictInsert {V : Type} (d : List (String × V)) (k : String) (v : V) :
    List (String × V) :=
  if k ∈ keysOf d then d.map (fun p => if p.1 = k then (p.1, v) else p)
  else d ++ [(k, v)]

/-- Python `d.update(u)`: assign every entry of `u` into `d`, in order. -/
def dictUpdate {V : Type} (d u : List (String × V)) : List (String × V) :=
  u.foldl (fun acc kv => dictInsert acc kv.1 kv.2) d

/-! ## Parameter filtering (`_generate_host_params` / `_generate_detection_params`)

The source walks `args.items()`, keeps entries whose key is in `valid_keys`
and whose value `is not None`, and calls `param_deprecation(k)` for keys in
`deprecated_keys`.  The parameter dictionary and the emitted warnings are
independent accumulations, so they are modelled by two folds over the same
items; `generateParams` pairs them exactly as one call to the source function
returns the dict and emits the warnings. -/

def genParamsDict {V : Type} (valid : List String) (args : List (String × Option V)) :
    List (String × Option V) :=
  args.foldl
    (fun params kv => if kv.1 ∈ valid ∧ kv.2.isSome = true then dictInsert params kv.1 kv.2 else params)
    []

/-- The keys passed to `param_deprecation`, in order, during one filtering call. -/
def genParamsWarns {V : Type} (deprecated : List String) (args : List (String × Option V)) :
    List String :=
  args.foldl (fun w kv => if kv.1 ∈ deprecated then w ++ [kv.1] else w) []

def generateParams {V : Type} (valid deprecated : List String)
    (args : List (String × Option V)) : List (String × Option V) × List String :=
  (genParamsDict valid args, genParamsWarns deprecated args)

/-- `valid_keys` of `VectraClient._generate_host_params`. -/
def hostValidKeys : List String :=
  ["active_traffic", "c_score", "c_score_gte", "certainty", "certainty_gte", "fields",
   "has_active_traffic", "include_detection_summaries", "is_key_asset", "is_targeting_key_asset",
   "key_asset", "last_source", "mac_address", "name", "ordering", "page", "page_size", "state",
   "t_score", "t_score_gte", "tags", "threat", "threat_gte", "targets_key_asset"]

/-- `deprecated_keys` of `VectraClient._generate_host_params`. -/
def hostDeprecatedKeys : List String :=
  ["c_score", "c_score_gte", "key_asset", "t_score", "t_score_gte", "targets_key_asset"]

/-- `valid_keys` of `VectraClient._generate_detection_params`. -/
def detectionValidKeys : List String :=
  ["c_score", "c_score_gte", "category", "certainty", "certainty_gte", "detection",
   "detection_type", "detection_category", "fields", "host_id", "is_targeting_key_asset",
   "is_triaged", "ordering", "page", "page_size", "src_ip", "state", "t_score", "t_score_gte",
   "tags", "targets_key_asset", "threat", "threat_gte"]

/-- `deprecated_keys` of `VectraClient._generate_detection_params`. -/
def detectionDeprecatedKeys : List String :=
  ["c_score", "c_score_gte", "category", "t_score", "t_score_gte", "targets_key_asset"]

/-- `VectraClient._generate_host_params`: the returned params dict paired with
the deprecation notices emitted during the call. -/
def _generate_host_params {V : Type} (args : List (String × Option V)) :
    List (String × Option V) × List String :=
  generateParams hostValidKeys hostDeprecatedKeys args

/-- `VectraClient._generate_detection_params`, as for the host variant. -/
def _generate_detection_params {V : Type} (args : List (String × Option V)) :
    List (String × Option V) × List String :=
  generateParams detectionValidKeys detectionDeprecatedKeys args

/-! ## Client construction -/

structure VectraClient where
  url : String
  version : Nat
  verify : Bool
  headers : List (String × String)
  auth : Option (String × String)
  deriving DecidableEq

/-- The `RuntimeError` message of `VectraClient.__init__` (the spec's
`ConfigurationError`). -/
def authRequiredMsg : String :=
  "At least one form of authentication is required. Please provide a token or username and password"

/-- `VectraClient.__init__`: token wins and selects v2; otherwise username and
password select v1; otherwise construction raises. In the token branch
`self.auth` is never assigned, modelled by `auth := none`. -/
def VectraClient.init (url : String) (token user password : Option String) (verify : Bool) :
    Except String VectraClient :=
  if truthy token then
    .ok { url := url ++ "/api/v2", version := 2, verify := verify,
          headers := [("Authorization", "Token " ++ pyStrip (token.getD ""))],
          auth := none }
  else if truthy user && truthy password then
    .ok { url := url ++ "/api", version := 1, verify := verify, headers := [],
          auth := some (user.getD "", password.getD "") }
  else
    .error authRequiredMsg

/-! ## HTTP layer -/

inductive Method
  | get
  | post
  | patch
  | delete
  deriving DecidableEq

/-- The payload an operation attaches to its request: nothing, the url-encoded
form string of `set_key_asset`, the serialised `{"tags": ...}` dict of the
tagging endpoints, the proxy JSON object, the threat-feed JSON object, or the
uploaded STIX file of `post_stix_file`. -/
inductive Body where
  | empty
  | form (payload : String)
  | jsonTags (tags : List String)
  | jsonProxy (address : Option String) (considerProxy : Bool)
  | jsonFeed (name category certainty itype : Option String) (duration : Option Nat)
  | stixFile (fname : String)
  deriving DecidableEq

structure Feed where
  name : String
  id : Nat
  deriving DecidableEq

/-- The JSON fields of server responses the client reads: the pagination
cursor `['next']`, `['tags']`, `['proxies']['ip']` and `['threatFeeds']`. -/
structure Json where
  next : Option String
  tags : List String
  proxyIp : String
  threatFeeds : List Feed
  deriving DecidableEq

structure HttpResponse where
  status_code : Nat
  content : String
  json : Json
  deriving DecidableEq

structure HttpRequest where
  method : Method
  url : String
  headers : Option (List (String × String))
  auth : Option (String × String)
  params : List (String × Option String)
  body : Body
  verify : Bool
  deriving DecidableEq

/-- A transport stub: what the `requests` library answers to each request. -/
def Transport : Type := HttpRequest → HttpResponse

/-- Python exceptions raised by the client. `unsupportedVersion` is the
`NotImplementedError` of `validate_api_v2` (the spec's
`UnsupportedVersionError`); `requestFailed` is the `Exception(status, content)`
of `request_error_handler`. -/
inductive VError where
  | unsupportedVersion
  | requestFailed (status : Nat) (content : String)
  | valueError (msg : String)
  | exception (msg : String)
  | attributeError (msg : String)
  deriving DecidableEq

def respOk (r : HttpResponse) : Bool := r.status_code == 200 || r.status_code == 201

/-- `request_error_handler` around one request: issue it, return the response
when the status is 200 or 201, raise otherwise. -/
def runRequest (t : Transport) (req : HttpRequest) :
    List HttpRequest × Except VError HttpResponse :=
  let resp := t req
  if respOk resp then ([req], .ok resp)
  else ([req], .error (.requestFailed resp.status_code resp.content))

/-! ## Read operations -/

/-- `VectraClient.get_hosts`. -/
def get_hosts (c : VectraClient) (t : Transport) (kwargs : List (String × Option String)) :
    List HttpRequest × Except VError HttpResponse :=
  let req : HttpRequest :=
    if c.version = 2 then
      { method := .get, url := c.url ++ "/hosts", headers := some c.headers, auth := none,
        params := (_generate_host_params kwargs).1, body := .empty, verify := c.verify }
    else
      { method := .get, url := c.url ++ "/hosts", headers := none, auth := c.auth,
        params := (_generate_host_params kwargs).1, body := .empty, verify := c.verify }
  runRequest t req

/-- `VectraClient.get_host_by_id`. -/
def get_host_by_id (c : VectraClient) (t : Transport) (host_id : Option Nat)
    (kwargs : List (String × Option String)) : List HttpRequest × Except VError HttpResponse :=
  if idTruthy host_id = false then ([], .error (.exception "Host id required"))
  else
    let req : HttpRequest :=
      if c.version = 2 then
        { method := .get, url := c.url ++ "/hosts/" ++ urlId host_id, headers := some c.headers,
          auth := none, params := (_generate_host_params kwargs).1, body := .empty,
          verify := c.verify }
      else
        { method := .get, url := c.url ++ "/hosts/" ++ urlId host_id, headers := none,
          auth := c.auth, params := (_generate_host_params kwargs).1, body := .empty,
          verify := c.verify }
    runRequest t req

/-- `VectraClient.get_detections`. -/
def get_detections (c : VectraClient) (t : Transport) (kwargs : List (String × Option String)) :
    List HttpRequest × Except VError HttpResponse :=
  let req : HttpRequest :=
    if c.version = 2 then
      { method := .get, url := c.url ++ "/detections", headers := some c.headers, auth := none,
        params := (_generate_detection_params kwargs).1, body := .empty, verify := c.verify }
    else
      { method := .get, url := c.url ++ "/detections", headers := none, auth := c.auth,
        params := (_generate_detection_params kwargs).1, body := .empty, verify := c.verify }
  runRequest t req

/-- `VectraClient.get_detection_by_id`. -/
def get_detection_by_id (c : VectraClient) (t : Transport) (detection_id : Option Nat)
    (kwargs : List (String × Option String)) : List HttpRequest × Except VError HttpResponse :=
  if idTruthy detection_id = false then ([], .error (.exception "Detection id required"))
  else
    let req : HttpRequest :=
      if c.version = 2 then
        { method := .get, url := c.url ++ "/detections/" ++ urlId detection_id,
          headers := some c.headers, auth := none,
          params := (_generate_detection_params kwargs).1, body := .empty, verify := c.verify }
      else
        { method := .get, url := c.url ++ "/detections/" ++ urlId detection_id, headers := none,
          auth := c.auth, params := (_generate_detection_params kwargs).1, body := .empty,
          verify := c.verify }
    runRequest t req

/-- `VectraClient.custom_endpoint`: arbitrary GET against the client's base. -/
def custom_endpoint (c : VectraClient) (t : Transport) (path : String)
    (kwargs : List (String × Option String)) : List HttpRequest × Except VError HttpResponse :=
  let path := if pyStartsWith path "/" then path else "/" ++ path
  let params := kwargs.foldl (fun acc kv => dictInsert acc kv.1 kv.2) []
  let req : HttpRequest :=
    if c.version = 2 then
      { method := .get, url := c.url ++ path, headers := some c.headers, auth := none,
        params := params, body := .empty, verify := c.verify }
    else
      { method := .get, url := c.url ++ path, headers := none, auth := c.auth, params := params,
        body := .empty, verify := c.verify }
  runRequest t req

/-! ## v2-only operations (wrapped by `validate_api_v2` in the source)

Each definition's leading `if c.version = 2` is the `validate_api_v2`
decorator: on any other version the operation raises before touching the
client or the transport.  Mutating operations return the updated client (the
source mutates `self.headers` through aliasing). -/

/-- The GET request issued by `get_host_tags`; the source hard-codes
`verify=False` here instead of `self.verify`. -/
def hostTagsGetReq (c : VectraClient) (host_id : Option Nat) : HttpRequest :=
  { method := .get, url := c.url ++ "/tagging/host/" ++ urlId host_id, headers := some c.headers,
    auth := none, params := [], body := .empty, verify := false }

/-- `VectraClient.get_host_tags`. -/
def get_host_tags (c : VectraClient) (t : Transport) (host_id : Option Nat) :
    List HttpRequest × Except VError HttpResponse :=
  if c.version = 2 then runRequest t (hostTagsGetReq c host_id)
  else ([], .error .unsupportedVersion)

/-- The GET request issued by `get_detection_tags`; `verify=False` is likewise
hard-coded in the source. -/
def detectionTagsGetReq (c : VectraClient) (detection_id : Option Nat) : HttpRequest :=
  { method := .get, url := c.url ++ "/tagging/detection/" ++ urlId detection_id,
    headers := some c.headers, auth := none, params := [], body := .empty, verify := false }

/-- `VectraClient.get_detection_tags`. -/
def get_detection_tags (c : VectraClient) (t : Transport) (detection_id : Option Nat) :
    List HttpRequest × Except VError HttpResponse :=
  if c.version = 2 then runRequest t (detectionTagsGetReq c detection_id)
  else ([], .error .unsupportedVersion)

/-- `VectraClient.set_key_asset`. -/
def set_key_asset (c : VectraClient) (t : Transport) (host_id : Option Nat) (setFlag : Bool) :
    VectraClient × List HttpRequest × Except VError HttpResponse :=
  if c.version = 2 then
    if idTruthy host_id = false then (c, [], .error (.valueError "Host id required"))
    else
      let headers := dictUpdate c.headers [("Content-Type", "application/x-www-form-urlencoded")]
      let c' := { c with headers := headers }
      let payload := if setFlag then "key_asset=True" else "key_asset=False"
      let req : HttpRequest :=
        { method := .patch, url := c.url ++ "/hosts/" ++ urlId host_id, headers := some headers,
          auth := none, params := [], body := .form payload, verify := c.verify }
      let r := runRequest t req
      (c', r.1, r.2)
  else (c, [], .error .unsupportedVersion)

/-- `VectraClient.set_host_tags`.  With `append` the current tags are fetched
first and the payload is their concatenation with the new tags.  The model's
`tags` argument is already a list, so the source's `TypeError` branch for a
non-list argument is unreachable here. -/
def set_host_tags (c : VectraClient) (t : Transport) (host_id : Option Nat) (tags : List String)
    (append : Bool) : VectraClient × List HttpRequest × Except VError HttpResponse :=
  if c.version = 2 then
    let fetched : List HttpRequest × Except VError (List String) :=
      if append then
        match get_host_tags c t host_id with
        | (log, .ok resp) => (log, .ok (resp.json.tags ++ tags))
        | (log, .error e) => (log, .error e)
      else ([], .ok tags)
    match fetched with
    | (log, .error e) => (c, log, .error e)
    | (log, .ok payloadTags) =>
      let headers :=
        dictUpdate c.headers [("Content-Type", "application/json"), ("Cache-Control", "no-cache")]
      let c' := { c with headers := headers }
      let req : HttpRequest :=
        { method := .patch, url := c.url ++ "/tagging/host/" ++ urlId host_id,
          headers := some headers, auth := none, params := [], body := .jsonTags payloadTags,
          verify := c.verify }
      let r := runRequest t req
      (c', log ++ r.1, r.2)
  else (c, [], .error .unsupportedVersion)

/-- `VectraClient.set_detection_tags`, the detection analogue of
`set_host_tags`. -/
def set_detection_tags (c : VectraClient) (t : Transport) (detection_id : Option Nat)
    (tags : List String) (append : Bool) :
    VectraClient × List HttpRequest × Except VError HttpResponse :=
  if c.version = 2 then
    let fetched : List HttpRequest × Except VError (List String) :=
      if append then
        match get_detection_tags c t detection_id with
        | (log, .ok resp) => (log, .ok (resp.json.tags ++ tags))
        | (log, .error e) => (log, .error e)
      else ([], .ok tags)
    match fetched with
    | (log, .error e) => (c, log, .error e)
    | (log, .ok payloadTags) =>
      let headers :=
        dictUpdate c.headers [("Content-Type", "application/json"), ("Cache-Control", "no-cache")]
      let c' := { c with headers := headers }
      let req : HttpRequest :=
        { method := .patch, url := c.url ++ "/tagging/detection/" ++ urlId detection_id,
          headers := some headers, auth := none, params := [], body := .jsonTags payloadTags,
          verify := c.verify }
      let r := runRequest t req
      (c', log ++ r.1, r.2)
  else (c, [], .error .unsupportedVersion)

/-- `VectraClient.get_proxies`. -/
def get_proxies (c : VectraClient) (t : Transport) (proxy_id : Option Nat) :
    List HttpRequest × Except VError HttpResponse :=
  if c.version = 2 then
    if idTruthy proxy_id then
      runRequest t
        { method := .get, url := c.url ++ "/proxies/" ++ urlId proxy_id,
          headers := some c.headers, auth := none, params := [], body := .empty,
          verify := c.verify }
    else
      runRequest t
        { method := .get, url := c.url ++ "/proxies", headers := some c.headers, auth := none,
          params := [], body := .empty, verify := c.verify }
  else ([], .error .unsupportedVersion)

/-- `VectraClient.add_proxy`. -/
def add_proxy (c : VectraClient) (t : Transport) (host : Option String) (enable : Bool) :
    VectraClient × List HttpRequest × Except VError HttpResponse :=
  if c.version = 2 then
    let headers := dictUpdate c.headers [("Content-Type", "application/json")]
    let c' := { c with headers := headers }
    let req : HttpRequest :=
      { method := .post, url := c.url ++ "/proxies", headers := some headers, auth := none,
        params := [], body := .jsonProxy host enable, verify := c.verify }
    let r := runRequest t req
    (c', r.1, r.2)
  else (c, [], .error .unsupportedVersion)

/-- `VectraClient.update_proxy`: the headers are mutated before the current
proxy is fetched, and the patched address falls back to the fetched
`['proxies']['ip']` when no (truthy) address is supplied. -/
def update_proxy (c : VectraClient) (t : Transport) (proxy_id : Option Nat)
    (address : Option String) (enable : Bool) :
    VectraClient × List HttpRequest × Except VError HttpResponse :=
  if c.version = 2 then
    let headers := dictUpdate c.headers [("Content-Type", "application/json")]
    let c' := { c with headers := headers }
    match get_proxies c' t proxy_id with
    | (log, .error e) => (c', log, .error e)
    | (log, .ok resp) =>
      let addr := if truthy address then address.getD "" else resp.json.proxyIp
      let req : HttpRequest :=
        { method := .patch, url := c.url ++ "/proxies/" ++ urlId proxy_id,
          headers := some headers, auth := none, params := [],
          body := .jsonProxy (some addr) enable, verify := c.verify }
      let r := runRequest t req
      (c', log ++ r.1, r.2)
  else (c, [], .error .unsupportedVersion)

/-- `VectraClient.create_feed`. -/
def create_feed (c : VectraClient) (t : Transport)
    (name category certainty itype : Option String) (duration : Option Nat) :
    VectraClient × List HttpRequest × Except VError HttpResponse :=
  if c.version = 2 then
    let headers :=
      dictUpdate c.headers [("Content-Type", "application/json"), ("Cache-Control", "no-cache")]
    let c' := { c with headers := headers }
    let req : HttpRequest :=
      { method := .post, url := c.url ++ "/threatFeeds", headers := some headers, auth := none,
        params := [], body := .jsonFeed name category certainty itype duration,
        verify := c.verify }
    let r := runRequest t req
    (c', r.1, r.2)
  else (c, [], .error .unsupportedVersion)

/-- `VectraClient.delete_feed`. -/
def delete_feed (c : VectraClient) (t : Transport) (feed_id : Option Nat) :
    List HttpRequest × Except VError HttpResponse :=
  if c.version = 2 then
    runRequest t
      { method := .delete, url := c.url ++ "/threatFeeds/" ++ urlId feed_id,
        headers := some c.headers, auth := none, params := [], body := .empty,
        verify := c.verify }
  else ([], .error .unsupportedVersion)

/-- `VectraClient.get_feeds`. -/
def get_feeds (c : VectraClient) (t : Transport) : List HttpRequest × Except VError HttpResponse :=
  if c.version = 2 then
    runRequest t
      { method := .get, url := c.url ++ "/threatFeeds", headers := some c.headers, auth := none,
        params := [], body := .empty, verify := c.verify }
  else ([], .error .unsupportedVersion)

/-- `VectraClient.get_feed_by_name`: fetch all feeds and scan them for a
case-insensitive name match, returning the matching id (Python returns `None`
when nothing matches). -/
def get_feed_by_name (c : VectraClient) (t : Transport) (name : String) :
    List HttpRequest × Except VError (Option Nat) :=
  if c.version = 2 then
    let req : HttpRequest :=
      { method := .get, url := c.url ++ "/threatFeeds", headers := some c.headers, auth := none,
        params := [], body := .empty, verify := c.verify }
    let resp := t req
    if resp.status_code = 200 then
      ([req], .ok ((resp.json.threatFeeds.find? (fun f => pyLower f.name == pyLower name)).map Feed.id))
    else ([req], .error (.requestFailed resp.status_code resp.content))
  else ([], .error .unsupportedVersion)

/-- `VectraClient.post_stix_file`. -/
def post_stix_file (c : VectraClient) (t : Transport) (feed_id : Option Nat)
    (stix_file : String) : List HttpRequest × Except VError HttpResponse :=
  if c.version = 2 then
    runRequest t
      { method := .post, url := c.url ++ "/threatFeeds/" ++ urlId feed_id,
        headers := some c.headers, auth := none, params := [], body := .stixFile stix_file,
        verify := c.verify }
  else ([], .error .unsupportedVersion)

/-! ## Pagination generators

The generators are modelled as functions producing the list of yielded
elements, a flag telling whether the `while` loop exited normally (cursor
absent) rather than by fuel exhaustion, and the Python exception, if any, that
escaped while producing the next element.  The fuel only bounds the number of
loop iterations; in a scenario whose last page has no cursor it is irrelevant
once large enough. -/

/-- The `while resp.json()['next']:` loop of `get_all_hosts`: follow the
cursor through `custom_endpoint`, yielding each page. -/
def get_all_hosts_loop (c : VectraClient) (t : Transport) :
    Nat → HttpResponse → List HttpResponse × Bool × Option VError
  | 0, _ => ([], false, none)
  | fuel + 1, resp =>
    if truthy resp.json.next then
      let url := resp.json.next.getD ""
      let path := pyReplace url c.url
      match custom_endpoint c t path [] with
      | (_, .ok resp2) =>
        let rest := get_all_hosts_loop c t fuel resp2
        (resp2 :: rest.1, rest.2.1, rest.2.2)
      | (_, .error e) => ([], false, some e)
    else ([], true, none)

/-- `VectraClient.get_all_hosts`. -/
def get_all_hosts (c : VectraClient) (t : Transport) (kwargs : List (String × Option String))
    (fuel : Nat) : List HttpResponse × Bool × Option VError :=
  match get_hosts c t kwargs with
  | (_, .ok resp) =>
    let rest := get_all_hosts_loop c t fuel resp
    (resp :: rest.1, rest.2.1, rest.2.2)
  | (_, .error e) => ([], false, some e)

/-- The value bound to `resp` inside `get_all_detections`: the first iteration
holds a response object, but line 286 of the source rebinds it to the decoded
JSON body (`.json()` is applied before storing), so later iterations hold a
plain dict. -/
inductive RespVal where
  | response (r : HttpResponse)
  | jsonDict (j : Json)
  deriving DecidableEq

/-- Attribute lookup `resp.json()`: succeeds on a response object, raises
`AttributeError` on a dict. -/
def RespVal.jsonOf : RespVal → Except VError Json
  | .response r => .ok r.json
  | .jsonDict _ => .error (.attributeError "dict object has no attribute json")

/-- The `while resp.json()['next']:` loop of `get_all_detections`, with the
source's `custom_endpoint(path=path).json()` rebinding. -/
def get_all_detections_loop (c : VectraClient) (t : Transport) :
    Nat → RespVal → List RespVal × Bool × Option VError
  | 0, _ => ([], false, none)
  | fuel + 1, rv =>
    match rv.jsonOf with
    | .error e => ([], false, some e)
    | .ok j =>
      if truthy j.next then
        let url := j.next.getD ""
        let path := pyReplace url c.url
        match custom_endpoint c t path [] with
        | (_, .ok resp2) =>
          let rv2 := RespVal.jsonDict resp2.json
          let rest := get_all_detections_loop c t fuel rv2
          (rv2 :: rest.1, rest.2.1, rest.2.2)
        | (_, .error e) => ([], false, some e)
      else ([], true, none)

/-- `VectraClient.get_all_detections`. -/
def get_all_detections (c : VectraClient) (t : Transport)
    (kwargs : List (String × Option String)) (fuel : Nat) :
    List RespVal × Bool × Option VError :=
  match get_detections c t kwargs with
  | (_, .ok resp) =>
    let rest := get_all_detections_loop c t fuel (.response resp)
    (.response resp :: rest.1, rest.2.1, rest.2.2)
  | (_, .error e) => ([], false, some e)

/-! ## Dictionary lemmas -/

theorem keysOf_append {V : Type} (d e : List (String × V)) :
    keysOf (d ++ e) = keysOf d ++ keysOf e := by
  simp [keysOf]

theorem dictInsert_of_not_mem {V : Type} {d : List (String × V)} {k : String}
    (h : k ∉ keysOf d) (v : V) : dictInsert d k v = d ++ [(k, v)] := by
  unfold dictInsert
  rw [if_neg h]

theorem keysOf_dictInsert {V : Type} (d : List (String × V)) (k : String) (v : V) :
    keysOf (dictInsert d k v) = if k ∈ keysOf d then keysOf d else keysOf d ++ [k] := by
  unfold dictInsert
  by_cases h : k ∈ keysOf d
  · rw [if_pos h, if_pos h]
    unfold keysOf
    rw [List.map_map]
    apply List.map_congr_left
    intro p _
    by_cases hp : p.1 = k <;> simp [Function.comp, hp]
  · rw [if_neg h, if_neg h, keysOf_append]
    rfl

theorem nodup_keysOf_dictInsert {V : Type} {d : List (String × V)}
    (h : (keysOf d).Nodup) (k : String) (v : V) : (keysOf (dictInsert d k v)).Nodup := by
  rw [keysOf_dictInsert]
  by_cases hk : k ∈ keysOf d
  · rwa [if_pos hk]
  · rw [if_neg hk]
    simp [List.nodup_append, h, hk]

theorem forall_dictInsert {V : Type} {P : String × V → Prop} {d : List (String × V)}
    (hd : ∀ p ∈ d, P p) {k : String} {v : V} (hkv : P (k, v)) :
    ∀ p ∈ dictInsert d k v, P p := by
  intro p hp
  unfold dictInsert at hp
  by_cases h : k ∈ keysOf d
  · rw [if_pos h] at hp
    obtain ⟨q, hq, rfl⟩ := List.mem_map.mp hp
    by_cases hqk : q.1 = k
    · rw [if_pos hqk, hqk]
      exact hkv
    · rw [if_neg hqk]
      exact hd q hq
  · rw [if_neg h] at hp
    rcases List.mem_append.mp hp with h1 | h2
    · exact hd p h1
    · rw [List.mem_singleton] at h2
      subst h2
      exact hkv

/-! ## Filtering lemmas -/

theorem foldl_insert_filter {V : Type} (valid : List String)
    (args : List (String × Option V)) :
    ∀ acc : List (String × Option V),
      (args.map Prod.fst).Nodup →
      (∀ x ∈ keysOf acc, x ∉ args.map Prod.fst) →
      args.foldl (fun params kv =>
          if kv.1 ∈ valid ∧ kv.2.isSome = true then dictInsert params kv.1 kv.2 else params) acc
        = acc ++ args.filter (fun kv => decide (kv.1 ∈ valid) && kv.2.isSome) := by
  induction args with
  | nil =>
    intro acc _ _
    simp
  | cons kv rest ih =>
    intro acc hn hdisj
    rw [List.map_cons, List.nodup_cons] at hn
    obtain ⟨hk1, hn'⟩ := hn
    rw [List.foldl_cons]
    by_cases hp : kv.1 ∈ valid ∧ kv.2.isSome = true
    · rw [if_pos hp]
      have hfresh : kv.1 ∉ keysOf acc := fun hmem => hdisj kv.1 hmem (by simp)
      rw [dictInsert_of_not_mem hfresh]
      rw [ih (acc ++ [kv]) hn' ?hd]
      case hd =>
        intro x hx
        rw [keysOf_append] at hx
        rcases List.mem_append.mp hx with h1 | h2
        · intro hr
          exact hdisj x h1 (by simp [hr])
        · have hx1 : x = kv.1 := by simpa [keysOf] using h2
          subst hx1
          exact hk1
      rw [List.filter_cons_of_pos (by simp [hp.1, hp.2]), List.append_assoc]
      simp
    · rw [if_neg hp]
      rw [ih acc hn' (fun x hx hr => hdisj x hx (by simp [hr]))]
      rw [List.filter_cons_of_neg]
      simp only [Bool.and_eq_true, decide_eq_true_eq]
      exact hp

theorem genParamsDict_eq_filter {V : Type} (valid : List String)
    (args : List (String × Option V)) (h : (args.map Prod.fst).Nodup) :
    genParamsDict valid args
      = args.filter (fun kv => decide (kv.1 ∈ valid) && kv.2.isSome) := by
  unfold genParamsDict
  rw [foldl_insert_filter valid args [] h (by simp [keysOf])]
  simp

theorem genParamsDict_keys_nodup {V : Type} (valid : List String)
    (args : List (String × Option V)) : ((genParamsDict valid args).map Prod.fst).Nodup := by
  unfold genParamsDict
  suffices h : ∀ acc : List (String × Option V), (keysOf acc).Nodup →
      (keysOf (args.foldl (fun params kv =>
        if kv.1 ∈ valid ∧ kv.2.isSome = true then dictInsert params kv.1 kv.2 else params)
        acc)).Nodup by
    exact h [] (by simp [keysOf])
  induction args with
  | nil =>
    intro acc h
    simpa using h
  | cons kv rest ih =>
    intro acc h
    rw [List.foldl_cons]
    by_cases hp : kv.1 ∈ valid ∧ kv.2.isSome = true
    · rw [if_pos hp]
      exact ih _ (nodup_keysOf_dictInsert h kv.1 kv.2)
    · rw [if_neg hp]
      exact ih _ h

theorem genParamsDict_forall {V : Type} (valid : List String)
    (args : List (String × Option V)) :
    ∀ p ∈ genParamsDict valid args, p.1 ∈ valid ∧ p.2.isSome = true := by
  unfold genParamsDict
  suffices h : ∀ acc : List (String × Option V),
      (∀ p ∈ acc, p.1 ∈ valid ∧ p.2.isSome = true) →
      ∀ p ∈ args.foldl (fun params kv =>
          if kv.1 ∈ valid ∧ kv.2.isSome = true then dictInsert params kv.1 kv.2 else params) acc,
        p.1 ∈ valid ∧ p.2.isSome = true by
    exact h [] (by simp)
  induction args with
  | nil =>
    intro acc h
    simpa using h
  | cons kv rest ih =>
    intro acc h
    rw [List.foldl_cons]
    by_cases hp : kv.1 ∈ valid ∧ kv.2.isSome = true
    · rw [if_pos hp]
      exact ih _ (forall_dictInsert h hp)
    · rw [if_neg hp]
      exact ih _ h

theorem genParamsDict_idem {V : Type} (valid : List String)
    (args : List (String × Option V)) :
    genParamsDict valid (genParamsDict valid args) = genParamsDict valid args := by
  rw [genParamsDict_eq_filter valid _ (genParamsDict_keys_nodup valid args)]
  apply List.filter_eq_self.mpr
  intro p hp
  have h2 := genParamsDict_forall valid args p hp
  simp [h2.1, h2.2]

theorem foldl_warns {V : Type} (dep : List String) (args : List (String × Option V)) :
    ∀ w : List String,
      args.foldl (fun w kv => if kv.1 ∈ dep then w ++ [kv.1] else w) w
        = w ++ (args.map Prod.fst).filter (fun k => decide (k ∈ dep)) := by
  induction args with
  | nil =>
    intro w
    simp
  | cons kv rest ih =>
    intro w
    rw [List.foldl_cons, List.map_cons]
    by_cases hd : kv.1 ∈ dep
    · rw [if_pos hd, ih, List.filter_cons_of_pos (by simp [hd]), List.append_assoc]
      simp
    · rw [if_neg hd, ih, List.filter_cons_of_neg (by simp [hd])]

theorem genParamsWarns_eq_filter {V : Type} (dep : List String)
    (args : List (String × Option V)) :
    genParamsWarns dep args = (args.map Prod.fst).filter (fun k => decide (k ∈ dep)) := by
  unfold genParamsWarns
  rw [foldl_warns dep args []]
  simp

theorem warns_count {V : Type} (dep : List String) (args : List (String × Option V))
    (h : (args.map Prod.fst).Nodup) (k : String) :
    (genParamsWarns dep args).count k
      = if k ∈ dep ∧ k ∈ args.map Prod.fst then 1 else 0 := by
  by_cases hd : k ∈ dep
  · have hcf : (genParamsWarns dep args).count k = (args.map Prod.fst).count k := by
      rw [genParamsWarns_eq_filter]
      exact List.count_filter (by simp [hd])
    rw [hcf]
    by_cases hm : k ∈ args.map Prod.fst
    · rw [if_pos ⟨hd, hm⟩]
      exact List.count_eq_one_of_mem h hm
    · rw [if_neg (fun hc => hm hc.2)]
      exact List.count_eq_zero_of_not_mem hm
  · rw [if_neg (fun hc => hd hc.1), genParamsWarns_eq_filter]
    apply List.count_eq_zero_of_not_mem
    intro hmem
    have hpk := List.of_mem_filter hmem
    simp at hpk
    exact hd hpk

/-! ## Claim theorems -/

/-- C1: for every input mapping (a dict, so its keys are distinct), the host
and detection parameter filters return exactly the entries whose key is in the
corresponding allow-list and whose value is not `None`; every entry with an
unrecognized key is dropped, and the functions are total, so no error is
raised. -/
theorem claim1_param_filter {V : Type} (args : List (String × Option V))
    (h : (args.map Prod.fst).Nodup) :
    (_generate_host_params args).1
        = args.filter (fun kv => decide (kv.1 ∈ hostValidKeys) && kv.2.isSome)
  ∧ (_generate_detection_params args).1
        = args.filter (fun kv => decide (kv.1 ∈ detectionValidKeys) && kv.2.isSome) :=
  ⟨genParamsDict_eq_filter hostValidKeys args h, genParamsDict_eq_filter detectionValidKeys args h⟩

/-- Witness for C1 at a concrete mapping: a valid entry is kept, a null-valued
entry and an unrecognized key are dropped. -/
theorem claim1_param_filter_witness :
    (([("c_score", (some 1 : Option Nat)), ("bogus", some 2), ("page", none),
       ("certainty", some 4)].map Prod.fst).Nodup)
  ∧ (_generate_host_params
        [("c_score", (some 1 : Option Nat)), ("bogus", some 2), ("page", none),
         ("certainty", some 4)]).1
      = [("c_score", (some 1 : Option Nat)), ("bogus", some 2), ("page", none),
         ("certainty", some 4)].filter
          (fun kv => decide (kv.1 ∈ hostValidKeys) && kv.2.isSome) :=
  ⟨by decide, (claim1_param_filter _ (by decide)).1⟩

/-- C8: applying the host (resp. detection) parameter filter to its own output
returns that output unchanged. -/
theorem claim8_filter_idempotent {V : Type} (args : List (String × Option V)) :
    (_generate_host_params (_generate_host_params args).1).1 = (_generate_host_params args).1
  ∧ (_generate_detection_params (_generate_detection_params args).1).1
      = (_generate_detection_params args).1 :=
  ⟨genParamsDict_idem hostValidKeys args, genParamsDict_idem detectionValidKeys args⟩

/-- C9: one filtering call emits exactly one deprecation notice for each
deprecated key present in the input, whether or not it is forwarded, and none
for other keys. -/
theorem claim9_deprecation_once {V : Type} (args : List (String × Option V))
    (h : (args.map Prod.fst).Nodup) (k : String) :
    ((_generate_host_params args).2.count k
        = if k ∈ hostDeprecatedKeys ∧ k ∈ args.map Prod.fst then 1 else 0)
  ∧ ((_generate_detection_params args).2.count k
        = if k ∈ detectionDeprecatedKeys ∧ k ∈ args.map Prod.fst then 1 else 0) :=
  ⟨warns_count hostDeprecatedKeys args h k, warns_count detectionDeprecatedKeys args h k⟩

/-- Witness for C9: a deprecated key whose value is `None` (so it is not
forwarded) is still warned about exactly once, and a non-deprecated key is
never warned about. -/
theorem claim9_deprecation_once_witness :
    (([("c_score", (none : Option Nat)), ("name", some 5), ("bogus", some 7)].map
        Prod.fst).Nodup)
  ∧ (_generate_host_params
        [("c_score", (none : Option Nat)), ("name", some 5), ("bogus", some 7)]).2.count
        "c_score" = 1
  ∧ (_generate_host_params
        [("c_score", (none : Option Nat)), ("name", some 5), ("bogus", some 7)]).2.count
        "name" = 0 :=
  ⟨by decide,
   ((claim9_deprecation_once _ (by decide) "c_score").1).trans (by decide),
   ((claim9_deprecation_once _ (by decide) "name").1).trans (by decide)⟩

/-- C6: constructing a client with no truthy token and no complete
username/password pair fails with the configuration error, producing no
client. -/
theorem claim6_no_credentials_error (url : String) (token user password : Option String)
    (verify : Bool) (ht : truthy token = false)
    (h : truthy user = false ∨ truthy password = false) :
    VectraClient.init url token user password verify = .error authRequiredMsg := by
  have hb : (truthy user && truthy password) = false := by
    rcases h with h | h <;> simp [h]
  unfold VectraClient.init
  rw [ht, hb]
  simp

/-- Witness for C6: a username with no password yields the configuration
error. -/
theorem claim6_no_credentials_error_witness :
    truthy (none : Option String) = false
  ∧ (truthy (some "user") = false ∨ truthy (none : Option String) = false)
  ∧ VectraClient.init "https://vectra" none (some "user") none false
      = .error authRequiredMsg :=
  ⟨by decide, Or.inr (by decide),
   claim6_no_credentials_error "https://vectra" none (some "user") none false (by decide)
     (Or.inr (by decide))⟩

/-- C7: constructing with both a token and a username/password pair resolves
to version 2: the url gains the `/api/v2` suffix, an Authorization header
bearing the stripped token is prepared, and the basic-auth credentials are
never stored. -/
theorem claim7_token_precedence (url : String) (token user password : Option String)
    (verify : Bool) (ht : truthy token = true) (hu : truthy user = true)
    (hp : truthy password = true) :
    VectraClient.init url token user password verify
      = .ok { url := url ++ "/api/v2", version := 2, verify := verify,
              headers := [("Authorization", "Token " ++ pyStrip (token.getD ""))],
              auth := none } := by
  unfold VectraClient.init
  rw [ht]
  simp

/-- Witness for C7 at concrete credentials. -/
theorem claim7_token_precedence_witness :
    truthy (some "tok ") = true ∧ truthy (some "user") = true ∧ truthy (some "pw") = true
  ∧ VectraClient.init "https://vectra" (some "tok ") (some "user") (some "pw") true
      = .ok { url := "https://vectra" ++ "/api/v2", version := 2, verify := true,
              headers := [("Authorization", "Token " ++ pyStrip ((some "tok ").getD ""))],
              auth := none } :=
  ⟨by decide, by decide, by decide,
   claim7_token_precedence "https://vectra" (some "tok ") (some "user") (some "pw") true
     (by decide) (by decide) (by decide)⟩

/-- A version-1 client, as produced by username/password construction. -/
def clientV1 : VectraClient :=
  { url := "https://vectra/api", version := 1, verify := false, headers := [],
    auth := some ("user", "pw") }

/-- A transport stub answering 200 with an empty JSON body to every request. -/
def okTransport : Transport := fun _ =>
  { status_code := 200, content := "",
    json := { next := none, tags := [], proxyIp := "", threatFeeds := [] } }

/-- C2: on a client whose resolved version is not 2, every v2-only operation
raises the unsupported-version error immediately, with an empty request log,
so zero transport invocations occur. -/
theorem claim2_v2_gate (c : VectraClient) (t : Transport) (hv : c.version ≠ 2)
    (host_id detection_id proxy_id feed_id : Option Nat) (tags : List String)
    (append setFlag enable : Bool) (host address name category certainty itype : Option String)
    (duration : Option Nat) (fname stix_file : String) :
    set_key_asset c t host_id setFlag = (c, [], .error .unsupportedVersion)
  ∧ set_host_tags c t host_id tags append = (c, [], .error .unsupportedVersion)
  ∧ get_host_tags c t host_id = ([], .error .unsupportedVersion)
  ∧ set_detection_tags c t detection_id tags append = (c, [], .error .unsupportedVersion)
  ∧ get_detection_tags c t detection_id = ([], .error .unsupportedVersion)
  ∧ get_proxies c t proxy_id = ([], .error .unsupportedVersion)
  ∧ add_proxy c t host enable = (c, [], .error .unsupportedVersion)
  ∧ update_proxy c t proxy_id address enable = (c, [], .error .unsupportedVersion)
  ∧ create_feed c t name category certainty itype duration = (c, [], .error .unsupportedVersion)
  ∧ delete_feed c t feed_id = ([], .error .unsupportedVersion)
  ∧ get_feeds c t = ([], .error .unsupportedVersion)
  ∧ get_feed_by_name c t fname = ([], .error .unsupportedVersion)
  ∧ post_stix_file c t feed_id stix_file = ([], .error .unsupportedVersion) := by
  refine ⟨?_, ?_, ?_, ?_, ?_, ?_, ?_, ?_, ?_, ?_, ?_, ?_, ?_⟩ <;>
    simp [set_key_asset, set_host_tags, get_host_tags, set_detection_tags, get_detection_tags,
          get_proxies, add_proxy, update_proxy, create_feed, delete_feed, get_feeds,
          get_feed_by_name, post_stix_file, hv]

/-- Witness for C2: a concrete v1 client with a transport stub; the gate fires
with an empty request log. -/
theorem claim2_v2_gate_witness :
    clientV1.version ≠ 2
  ∧ set_key_asset clientV1 okTransport (some 1) true
      = (clientV1, [], .error .unsupportedVersion)
  ∧ get_host_tags clientV1 okTransport (some 1) = ([], .error .unsupportedVersion)
  ∧ get_feeds clientV1 okTransport = ([], .error .unsupportedVersion) :=
  have h := claim2_v2_gate clientV1 okTransport (by decide) (some 1) (some 2) (some 3) (some 4)
    ["tag"] true true true (some "host") (some "addr") (some "feed") (some "lateral")
    (some "Low") (some "Watchlist") (some 14) "feed" "file.stix"
  ⟨by decide, h.1, h.2.2.1, h.2.2.2.2.2.2.2.2.2.2.1⟩

theorem mem_keysOf_dictInsert_self {V : Type} (d : List (String × V)) (k : String) (v : V) :
    k ∈ keysOf (dictInsert d k v) := by
  rw [keysOf_dictInsert]
  by_cases h : k ∈ keysOf d
  · rwa [if_pos h]
  · rw [if_neg h]
    simp

theorem mem_keysOf_dictInsert_of_mem {V : Type} {d : List (String × V)} {a : String}
    (h : a ∈ keysOf d) (k : String) (v : V) : a ∈ keysOf (dictInsert d k v) := by
  rw [keysOf_dictInsert]
  by_cases hk : k ∈ keysOf d
  · rwa [if_pos hk]
  · rw [if_neg hk]
    exact List.mem_append_left _ h

theorem dictUpdate_one {V : Type} (d : List (String × V)) (k : String) (v : V) :
    dictUpdate d [(k, v)] = dictInsert d k v := rfl

theorem dictUpdate_two {V : Type} (d : List (String × V)) (k1 k2 : String) (v1 v2 : V) :
    dictUpdate d [(k1, v1), (k2, v2)] = dictInsert (dictInsert d k1 v1) k2 v2 := rfl

/-- The configuration frame of a mutating call: the client coming out of the
call carries the same url, version, verify flag and auth material as the one
going in. -/
def frameOK (r : VectraClient × List HttpRequest × Except VError HttpResponse)
    (c : VectraClient) : Prop :=
  r.1.url = c.url ∧ r.1.version = c.version ∧ r.1.verify = c.verify ∧ r.1.auth = c.auth

/-- Whether a call completed without raising. -/
def isOkE : Except VError HttpResponse → Bool
  | .ok _ => true
  | .error _ => false

/-- The header effect of a mutating call: the stored header mapping now has a
`Content-Type` entry, and every previously present header key is still
present. -/
def headersOK (r : VectraClient × List HttpRequest × Except VError HttpResponse)
    (c : VectraClient) : Prop :=
  "Content-Type" ∈ keysOf r.1.headers ∧ ∀ k ∈ keysOf c.headers, k ∈ keysOf r.1.headers

/-- C10: every mutating v2 operation pushes `Content-Type` (and, for the
tagging and feed-creation calls, `Cache-Control`) into the client's stored
header mapping through `dict.update`, so after a successful call those keys
are present and every previously stored header key remains present for
subsequent calls; the client's url, version, verify and auth fields are
unchanged by every operation, successful or not. -/
theorem claim10_header_mutation (c : VectraClient) (t : Transport)
    (host_id detection_id proxy_id : Option Nat) (tags : List String)
    (setFlag append enable : Bool)
    (host address name category certainty itype : Option String) (duration : Option Nat)
    (hv : c.version = 2) :
    (frameOK (set_key_asset c t host_id setFlag) c
      ∧ (isOkE (set_key_asset c t host_id setFlag).2.2 = true →
          headersOK (set_key_asset c t host_id setFlag) c))
  ∧ (frameOK (set_host_tags c t host_id tags append) c
      ∧ (isOkE (set_host_tags c t host_id tags append).2.2 = true →
          headersOK (set_host_tags c t host_id tags append) c
          ∧ "Cache-Control" ∈ keysOf (set_host_tags c t host_id tags append).1.headers))
  ∧ (frameOK (set_detection_tags c t detection_id tags append) c
      ∧ (isOkE (set_detection_tags c t detection_id tags append).2.2 = true →
          headersOK (set_detection_tags c t detection_id tags append) c
          ∧ "Cache-Control" ∈ keysOf (set_detection_tags c t detection_id tags append).1.headers))
  ∧ (frameOK (add_proxy c t host enable) c
      ∧ (isOkE (add_proxy c t host enable).2.2 = true →
          headersOK (add_proxy c t host enable) c))
  ∧ (frameOK (update_proxy c t proxy_id address enable) c
      ∧ (isOkE (update_proxy c t proxy_id address enable).2.2 = true →
          headersOK (update_proxy c t proxy_id address enable) c))
  ∧ (frameOK (create_feed c t name category certainty itype duration) c
      ∧ (isOkE (create_feed c t name category certainty itype duration).2.2 = true →
          headersOK (create_feed c t name category certainty itype duration) c
          ∧ "Cache-Control" ∈
              keysOf (create_feed c t name category certainty itype duration).1.headers)) := by
  unfold frameOK headersOK
  refine ⟨?_, ?_, ?_, ?_, ?_, ?_⟩
  · by_cases hid : idTruthy host_id = false
    · simp [set_key_asset, hv, hid, isOkE]
    · simp only [set_key_asset, hv, hid, if_true, if_false, reduceIte]
      refine ⟨⟨by trivial, by trivial, by trivial, by trivial⟩, fun _ => ⟨?_, fun k hk => ?_⟩⟩
      · rw [dictUpdate_one]
        exact mem_keysOf_dictInsert_self _ _ _
      · rw [dictUpdate_one]
        exact mem_keysOf_dictInsert_of_mem hk _ _
  · by_cases happ : append = true
    · rcases hres : get_host_tags c t host_id with ⟨log, res⟩
      cases res with
      | error e => simp [set_host_tags, hv, happ, hres, isOkE]
      | ok resp =>
        simp only [set_host_tags, hv, happ, hres, if_true, if_false, reduceIte]
        refine ⟨⟨by trivial, by trivial, by trivial, by trivial⟩, fun _ => ⟨⟨?_, fun k hk => ?_⟩, ?_⟩⟩
        · rw [dictUpdate_two]
          exact mem_keysOf_dictInsert_of_mem (mem_keysOf_dictInsert_self _ _ _) _ _
        · rw [dictUpdate_two]
          exact mem_keysOf_dictInsert_of_mem (mem_keysOf_dictInsert_of_mem hk _ _) _ _
        · rw [dictUpdate_two]
          exact mem_keysOf_dictInsert_self _ _ _
    · simp only [set_host_tags, hv, happ, if_true, if_false, reduceIte]
      refine ⟨⟨by trivial, by trivial, by trivial, by trivial⟩, fun _ => ⟨⟨?_, fun k hk => ?_⟩, ?_⟩⟩
      · rw [dictUpdate_two]
        exact mem_keysOf_dictInsert_of_mem (mem_keysOf_dictInsert_self _ _ _) _ _
      · rw [dictUpdate_two]
        exact mem_keysOf_dictInsert_of_mem (mem_keysOf_dictInsert_of_mem hk _ _) _ _
      · rw [dictUpdate_two]
        exact mem_keysOf_dictInsert_self _ _ _
  · by_cases happ : append = true
    · rcases hres : get_detection_tags c t detection_id with ⟨log, res⟩
      cases res with
      | error e => simp [set_detection_tags, hv, happ, hres, isOkE]
      | ok resp =>
        simp only [set_detection_tags, hv, happ, hres, if_true, if_false, reduceIte]
        refine ⟨⟨by trivial, by trivial, by trivial, by trivial⟩, fun _ => ⟨⟨?_, fun k hk => ?_⟩, ?_⟩⟩
        · rw [dictUpdate_two]
          exact mem_keysOf_dictInsert_of_mem (mem_keysOf_dictInsert_self _ _ _) _ _
        · rw [dictUpdate_two]
          exact mem_keysOf_dictInsert_of_mem (mem_keysOf_dictInsert_of_mem hk _ _) _ _
        · rw [dictUpdate_two]
          exact mem_keysOf_dictInsert_self _ _ _
    · simp only [set_detection_tags, hv, happ, if_true, if_false, reduceIte]
      refine ⟨⟨by trivial, by trivial, by trivial, by trivial⟩, fun _ => ⟨⟨?_, fun k hk => ?_⟩, ?_⟩⟩
      · rw [dictUpdate_two]
        exact mem_keysOf_dictInsert_of_mem (mem_keysOf_dictInsert_self _ _ _) _ _
      · rw [dictUpdate_two]
        exact mem_keysOf_dictInsert_of_mem (mem_keysOf_dictInsert_of_mem hk _ _) _ _
      · rw [dictUpdate_two]
        exact mem_keysOf_dictInsert_self _ _ _
  · simp only [add_proxy, hv, reduceIte]
    refine ⟨⟨by trivial, by trivial, by trivial, by trivial⟩, fun _ => ⟨?_, fun k hk => ?_⟩⟩
    · rw [dictUpdate_one]
      exact mem_keysOf_dictInsert_self _ _ _
    · rw [dictUpdate_one]
      exact mem_keysOf_dictInsert_of_mem hk _ _
  · rcases hres : get_proxies
        { url := c.url, version := 2, verify := c.verify,
          headers := dictUpdate c.headers [("Content-Type", "application/json")],
          auth := c.auth } t proxy_id with ⟨log, res⟩
    cases res with
    | error e => simp [update_proxy, hv, hres, isOkE]
    | ok resp =>
      simp only [update_proxy, hv, hres, reduceIte]
      refine ⟨⟨by trivial, by trivial, by trivial, by trivial⟩, fun _ => ⟨?_, fun k hk => ?_⟩⟩
      · rw [dictUpdate_one]
        exact mem_keysOf_dictInsert_self _ _ _
      · rw [dictUpdate_one]
        exact mem_keysOf_dictInsert_of_mem hk _ _
  · simp only [create_feed, hv, reduceIte]
    refine ⟨⟨by trivial, by trivial, by trivial, by trivial⟩, fun _ => ⟨⟨?_, fun k hk => ?_⟩, ?_⟩⟩
    · rw [dictUpdate_two]
      exact mem_keysOf_dictInsert_of_mem (mem_keysOf_dictInsert_self _ _ _) _ _
    · rw [dictUpdate_two]
      exact mem_keysOf_dictInsert_of_mem (mem_keysOf_dictInsert_of_mem hk _ _) _ _
    · rw [dictUpdate_two]
      exact mem_keysOf_dictInsert_self _ _ _

/-- A version-2 client, as produced by token construction. -/
def clientV2 : VectraClient :=
  { url := "https://vectra/api/v2", version := 2, verify := false,
    headers := [("Authorization", "Token tok")], auth := none }

/-- Witness for C10: on a concrete v2 client with an all-200 transport, the
frame is preserved and the Content-Type / Cache-Control keys appear in the
stored headers after successful mutating calls. -/
theorem claim10_header_mutation_witness :
    clientV2.version = 2
  ∧ (set_key_asset clientV2 okTransport (some 1) true).1.url = clientV2.url
  ∧ "Content-Type" ∈ keysOf (set_key_asset clientV2 okTransport (some 1) true).1.headers
  ∧ "Cache-Control" ∈ keysOf (set_host_tags clientV2 okTransport (some 1) ["a"] true).1.headers :=
  have h := claim10_header_mutation clientV2 okTransport (some 1) (some 2) (some 3) ["a"]
    true true true (some "h") (some "a") (some "n") (some "c") (some "Low") (some "W") (some 14)
    rfl
  ⟨rfl, h.1.1.1, (h.1.2 (by decide)).1, (h.2.1.2 (by decide)).2⟩

/-- C5: with `append=true`, the tag payload submitted by `set_host_tags` and
`set_detection_tags` is the server's current tag list concatenated with the
new tags in order, duplicates preserved; the call issues exactly the tag GET
followed by the PATCH carrying that payload. -/
theorem claim5_tag_append_concat (c : VectraClient) (t : Transport)
    (host_id detection_id : Option Nat) (tags : List String) (hv : c.version = 2)
    (h200 : (t (hostTagsGetReq c host_id)).status_code = 200)
    (d200 : (t (detectionTagsGetReq c detection_id)).status_code = 200) :
    (set_host_tags c t host_id tags true).2.1.map HttpRequest.body
        = [.empty, .jsonTags ((t (hostTagsGetReq c host_id)).json.tags ++ tags)]
  ∧ (set_detection_tags c t detection_id tags true).2.1.map HttpRequest.body
        = [.empty, .jsonTags ((t (detectionTagsGetReq c detection_id)).json.tags ++ tags)] := by
  have hok : respOk (t (hostTagsGetReq c host_id)) = true := by
    simp [respOk, h200]
  have dok : respOk (t (detectionTagsGetReq c detection_id)) = true := by
    simp [respOk, d200]
  have hget : get_host_tags c t host_id
      = ([hostTagsGetReq c host_id], .ok (t (hostTagsGetReq c host_id))) := by
    simp [get_host_tags, hv, runRequest, hok]
  have dget : get_detection_tags c t detection_id
      = ([detectionTagsGetReq c detection_id], .ok (t (detectionTagsGetReq c detection_id))) := by
    simp [get_detection_tags, hv, runRequest, dok]
  constructor
  · simp [set_host_tags, hv, hget, runRequest, hostTagsGetReq, apply_ite]
  · simp [set_detection_tags, hv, dget, runRequest, detectionTagsGetReq, apply_ite]

/-- A transport whose tag endpoints report the current tags `["a", "b"]`. -/
def tagsTransport : Transport := fun _ =>
  { status_code := 200, content := "",
    json := { next := none, tags := ["a", "b"], proxyIp := "", threatFeeds := [] } }

/-- Witness for C5, the spec's example: current tags `["a","b"]` plus new tags
`["b","c"]` submit `["a","b","b","c"]`, not a deduplicated union. -/
theorem claim5_tag_append_concat_witness :
    clientV2.version = 2
  ∧ (tagsTransport (hostTagsGetReq clientV2 (some 1))).status_code = 200
  ∧ (set_host_tags clientV2 tagsTransport (some 1) ["b", "c"] true).2.1.map HttpRequest.body
      = [.empty, .jsonTags ["a", "b", "b", "c"]] :=
  ⟨rfl, rfl,
   ((claim5_tag_append_concat clientV2 tagsTransport (some 1) (some 1) ["b", "c"] rfl rfl
      rfl).1).trans (by decide)⟩

/-- A v2 client whose TLS-verification flag is set. -/
def clientVerify : VectraClient :=
  { url := "https://vectra/api/v2", version := 2, verify := true,
    headers := [("Authorization", "Token tok")], auth := none }

/-- C3 fails on the code: on a client constructed with `verify=True`,
`get_hosts` sends its request with the stored flag and base URL, but
`get_host_tags` and `get_detection_tags` send `verify=False`, hard-coded at
lines 208 and 314 of the source, contradicting the invariant that every
request uses the client's stored verification flag.  The base URL itself is
honored by all three. -/
theorem claim3_verify_flag_bug :
    clientVerify.verify = true
  ∧ (get_hosts clientVerify okTransport []).1.map HttpRequest.verify = [true]
  ∧ (get_host_tags clientVerify okTransport (some 1)).1.map HttpRequest.verify = [false]
  ∧ (get_detection_tags clientVerify okTransport (some 1)).1.map HttpRequest.verify = [false]
  ∧ (get_hosts clientVerify okTransport []).1.map HttpRequest.url
      = ["https://vectra/api/v2/hosts"]
  ∧ (get_host_tags clientVerify okTransport (some 1)).1.map HttpRequest.url
      = ["https://vectra/api/v2/tagging/host/1"]
  ∧ (get_detection_tags clientVerify okTransport (some 1)).1.map HttpRequest.url
      = ["https://vectra/api/v2/tagging/detection/1"] := by
  refine ⟨rfl, ?_, ?_, ?_, ?_, ?_, ?_⟩ <;> decide

/-- A scripted 200-status page with the given cursor and label. -/
def mkPage (next : Option String) (label : String) : HttpResponse :=
  { status_code := 200, content := label,
    json := { next := next, tags := [], proxyIp := "", threatFeeds := [] } }

def hostPage1 : HttpResponse := mkPage (some "https://vectra/api/v2/hosts?page=2") "h1"

def hostPage2 : HttpResponse := mkPage (some "https://vectra/api/v2/hosts?page=3") "h2"

def hostPage3 : HttpResponse := mkPage none "h3"

def detPage1 : HttpResponse := mkPage (some "https://vectra/api/v2/detections?page=2") "d1"

def detPage2 : HttpResponse := mkPage (some "https://vectra/api/v2/detections?page=3") "d2"

def detPage3 : HttpResponse := mkPage none "d3"

/-- The scripted three-page transport of the claim: pages 1 and 2 of each
resource carry a `next` cursor, page 3 carries none. -/
def pagesTransport : Transport := fun req =>
  if req.url = "https://vectra/api/v2/hosts" then hostPage1
  else if req.url = "https://vectra/api/v2/hosts?page=2" then hostPage2
  else if req.url = "https://vectra/api/v2/hosts?page=3" then hostPage3
  else if req.url = "https://vectra/api/v2/detections" then detPage1
  else if req.url = "https://vectra/api/v2/detections?page=2" then detPage2
  else if req.url = "https://vectra/api/v2/detections?page=3" then detPage3
  else mkPage none "unknown"

/-- C4 holds for `get_all_hosts` but fails for `get_all_detections`: on the
scripted three-page sequence, `get_all_hosts` yields exactly the three pages
in order and terminates normally, while `get_all_detections` yields the first
response and the second page's decoded JSON body and then raises
`AttributeError` (line 286 of the source stores `.json()` of the follow-up
response, and the loop condition then calls `.json()` on a dict). -/
theorem claim4_pagination_bug :
    get_all_hosts clientV2 pagesTransport [] 10 = ([hostPage1, hostPage2, hostPage3], true, none)
  ∧ get_all_detections clientV2 pagesTransport [] 10
      = ([.response detPage1, .jsonDict detPage2.json], false,
         some (.attributeError "dict object has no attribute json")) := by
  constructor <;> decide

end Vectra
